import Mathlib

/-!
Shallow embedding of the vital-sign monitoring system
(`monitor_enhanced.py` and `monitor_advanced.py`) and proofs of the
spec claims about it.

Numeric readings are modelled as rationals (`ℚ`): every constant in the
source is an exact decimal, and the claims are about ordering and exact
decimal arithmetic, not float rounding.  Timestamps are environment
supplied and irrelevant to every claim, so `VitalReading` omits them.
-/

namespace BMS

/-- All vital conditions, as in the `VitalCondition` enum shared by
`monitor_enhanced.py` and `monitor_advanced.py`. -/
inductive VitalCondition where
  | HYPO_THERMIA
  | NEAR_HYPO
  | NORMAL
  | NEAR_HYPER
  | HYPER_THERMIA
  | BRADY_CARDIA
  | NEAR_BRADY
  | NEAR_TACHY
  | TACHY_CARDIA
  | LOW_OXYGEN
  | NEAR_LOW_OXYGEN
  | NEAR_HIGH_OXYGEN
  | HIGH_OXYGEN
deriving DecidableEq

/-- Python's `str.upper()` for the ASCII strings this program compares
(unit tokens, language codes). -/
def py_upper (s : String) : String :=
  String.mk (s.data.map Char.toUpper)

/-! ## Enhanced module (`monitor_enhanced.py`) -/

/-- A range endpoint: `float('-inf')`, a finite value, or `float('inf')`. -/
inductive Bound where
  | ninf
  | val (q : ℚ)
  | pinf
deriving DecidableEq

/-- `lo <= v` for a lower bound `lo` (Python float comparison against
`-inf`/`inf`). -/
def Bound.lowLE : Bound → ℚ → Prop
  | .ninf, _ => True
  | .val a, v => a ≤ v
  | .pinf, _ => False

instance : (b : Bound) → (v : ℚ) → Decidable (b.lowLE v)
  | .ninf, _ => isTrue trivial
  | .val a, v => inferInstanceAs (Decidable (a ≤ v))
  | .pinf, _ => isFalse fun h => h

/-- `v <= hi` for an upper bound `hi`. -/
def Bound.highGE : Bound → ℚ → Prop
  | .ninf, _ => False
  | .val a, v => v ≤ a
  | .pinf, _ => True

instance : (b : Bound) → (v : ℚ) → Decidable (b.highGE v)
  | .ninf, _ => isFalse fun h => h
  | .val a, v => inferInstanceAs (Decidable (v ≤ a))
  | .pinf, _ => isTrue trivial

/-- One row `(min_val, max_val, condition)` of a range table. -/
abbrev RangeRow := Bound × Bound × VitalCondition

/-- `min_val <= value <= max_val` test for one row. -/
def rowMatch (v : ℚ) (r : RangeRow) : Prop :=
  r.1.lowLE v ∧ r.2.1.highGE v

instance (v : ℚ) (r : RangeRow) : Decidable (rowMatch v r) :=
  inferInstanceAs (Decidable (_ ∧ _))

/-- `map_value_to_condition` of `monitor_enhanced.py` (lines 107-115):
first matching row wins, `NORMAL` if no row matches. -/
def map_value_to_condition (v : ℚ) : List RangeRow → VitalCondition
  | [] => .NORMAL
  | r :: rest => if rowMatch v r then r.2.2 else map_value_to_condition v rest

/-- `TEMP_RANGES` of `monitor_enhanced.py` (lines 37-43). -/
def TEMP_RANGES : List RangeRow :=
  [ (.ninf, .val (94.99 : ℚ), .HYPO_THERMIA),
    (.val 95, .val (96.53 : ℚ), .NEAR_HYPO),
    (.val (96.54 : ℚ), .val (100.46 : ℚ), .NORMAL),
    (.val (100.47 : ℚ), .val (101.99 : ℚ), .NEAR_HYPER),
    (.val 102, .pinf, .HYPER_THERMIA) ]

/-- `PULSE_RANGES` of `monitor_enhanced.py` (lines 45-51). -/
def PULSE_RANGES : List RangeRow :=
  [ (.ninf, .val (59.99 : ℚ), .BRADY_CARDIA),
    (.val 60, .val (61.5 : ℚ), .NEAR_BRADY),
    (.val (61.51 : ℚ), .val (98.49 : ℚ), .NORMAL),
    (.val (98.5 : ℚ), .val (99.99 : ℚ), .NEAR_TACHY),
    (.val 100, .pinf, .TACHY_CARDIA) ]

/-- `SPO2_RANGES` of `monitor_enhanced.py` (lines 53-59). -/
def SPO2_RANGES : List RangeRow :=
  [ (.ninf, .val (89.99 : ℚ), .LOW_OXYGEN),
    (.val 90, .val (91.5 : ℚ), .NEAR_LOW_OXYGEN),
    (.val (91.51 : ℚ), .val (98.49 : ℚ), .NORMAL),
    (.val (98.5 : ℚ), .val (99.99 : ℚ), .NEAR_HIGH_OXYGEN),
    (.val 100, .pinf, .HIGH_OXYGEN) ]

/-- English message table `MESSAGES['en']` of `monitor_enhanced.py`. -/
def MESSAGES_en : VitalCondition → String
  | .HYPO_THERMIA => "Temperature critical! Hypothermia detected"
  | .NEAR_HYPO => "Warning: Approaching hypothermia"
  | .NORMAL => ""
  | .NEAR_HYPER => "Warning: Approaching hyperthermia"
  | .HYPER_THERMIA => "Temperature critical! Hyperthermia detected"
  | .BRADY_CARDIA => "Pulse Rate critical! Bradycardia detected"
  | .NEAR_BRADY => "Warning: Approaching bradycardia"
  | .NEAR_TACHY => "Warning: Approaching tachycardia"
  | .TACHY_CARDIA => "Pulse Rate critical! Tachycardia detected"
  | .LOW_OXYGEN => "Oxygen Saturation critical! Hypoxemia detected"
  | .NEAR_LOW_OXYGEN => "Warning: Approaching low oxygen saturation"
  | .NEAR_HIGH_OXYGEN => "Warning: Approaching high oxygen saturation"
  | .HIGH_OXYGEN => "Oxygen Saturation critical! Hyperoxemia detected"

/-- German message table `MESSAGES['de']` of `monitor_enhanced.py`. -/
def MESSAGES_de : VitalCondition → String
  | .HYPO_THERMIA => "Temperatur kritisch! Unterkühlung erkannt"
  | .NEAR_HYPO => "Warnung: Annäherung an Unterkühlung"
  | .NORMAL => ""
  | .NEAR_HYPER => "Warnung: Annäherung an Überhitzung"
  | .HYPER_THERMIA => "Temperatur kritisch! Überhitzung erkannt"
  | .BRADY_CARDIA => "Puls kritisch! Bradykardie erkannt"
  | .NEAR_BRADY => "Warnung: Annäherung an Bradykardie"
  | .NEAR_TACHY => "Warnung: Annäherung an Tachykardie"
  | .TACHY_CARDIA => "Puls kritisch! Tachykardie erkannt"
  | .LOW_OXYGEN => "Sauerstoffsättigung kritisch! Hypoxämie erkannt"
  | .NEAR_LOW_OXYGEN => "Warnung: Annäherung an niedrige Sauerstoffsättigung"
  | .NEAR_HIGH_OXYGEN => "Warnung: Annäherung an hohe Sauerstoffsättigung"
  | .HIGH_OXYGEN => "Sauerstoffsättigung kritisch! Hyperoxämie erkannt"

/-- The `MESSAGES` dict keyed by language code: `some` table for the two
supported languages, `none` otherwise. -/
def MESSAGES_table (language : String) : Option (VitalCondition → String) :=
  if language = "en" then some MESSAGES_en
  else if language = "de" then some MESSAGES_de
  else none

/-- `get_condition_message` of `monitor_enhanced.py` (lines 117-124).
`language = none` models Python's default argument `None`, in which case
the module-global `CURRENT_LANGUAGE` (passed here explicitly as
`current_language`) is used.  Note the source's
`MESSAGES.get(language, MESSAGES['en'])`: an unknown language code falls
back to the English table. -/
def get_condition_message (condition : VitalCondition) (language : Option String)
    (current_language : String) : String :=
  let l := language.getD current_language
  ((MESSAGES_table l).getD MESSAGES_en) condition

/-- `set_language` of `monitor_enhanced.py` (lines 219-225): returns the
new value of `CURRENT_LANGUAGE` on success, raises `ValueError` on an
unsupported code. -/
def set_language_enhanced (language_code : String) : Except String String :=
  if (MESSAGES_table language_code).isSome then .ok language_code
  else .error ("Language '" ++ language_code ++ "' not supported")

/-- `translate_to_common_units` of `monitor_enhanced.py` (lines 98-105):
temperature in unit `C` is converted to Fahrenheit; everything else
passes through unchanged. -/
def translate_to_common_units (value : ℚ) (unit : String) (vital_type : String) : ℚ :=
  if vital_type = "temperature" ∧ py_upper unit = "C" then value * 9 / 5 + 32
  else value

/-! ## Advanced module (`monitor_advanced.py`) -/

/-- `VitalLimits` dataclass (lines 47-62): minimum, maximum and the
configurable warning tolerance percentage (default `1.5`). -/
structure VitalLimits where
  min_val : ℚ
  max_val : ℚ
  warning_tolerance : ℚ := 1.5
deriving DecidableEq

/-- `VitalLimits.calculate_warning_ranges`: `(min, min + tol, max - tol,
max)` with `tol = (max - min) * warning_tolerance / 100`. -/
def VitalLimits.calculate_warning_ranges (l : VitalLimits) : ℚ × ℚ × ℚ × ℚ :=
  let tolerance := (l.max_val - l.min_val) * l.warning_tolerance / 100
  (l.min_val, l.min_val + tolerance, l.max_val - tolerance, l.max_val)

/-- `PatientProfile` (lines 76-80).  `age = none` models Python `None`. -/
structure PatientProfile where
  age : Option ℤ := none
  profile_type : String := "adult"

/-- `PatientProfile.get_vital_limits` (lines 82-97).  Note two source
behaviours preserved exactly: the age test is Python truthiness
(`if self.age`), so `age = 0` (like `None`) skips adjustment; and an
unrecognized vital type silently yields the `.get` default
`VitalLimits(0, 100)`. -/
def PatientProfile.get_vital_limits (p : PatientProfile) (vital_type : String) :
    VitalLimits :=
  let pulse_limits : VitalLimits :=
    match p.age with
    | some a =>
      if a ≠ 0 ∧ vital_type = "pulseRate" then
        if a > 65 then ⟨50, 90, 1.5⟩
        else if a < 18 then ⟨80, 120, 1.5⟩
        else ⟨60, 100, 1.5⟩
      else ⟨60, 100, 1.5⟩
    | none => ⟨60, 100, 1.5⟩
  if vital_type = "temperature" then ⟨95, 102, 1.5⟩
  else if vital_type = "pulseRate" then pulse_limits
  else if vital_type = "spo2" then ⟨90, 100, 1.5⟩
  else ⟨0, 100, 1.5⟩

/-- `VitalReading` dataclass (lines 64-74), minus the timestamp (set to
the wall clock at creation; no claim depends on it). -/
structure VitalReading where
  value : ℚ
  unit : String
  source : String := "manual"
deriving DecidableEq

/-- `AdvancedMonitor.convert_units` (lines 149-162).  `Except` models the
`ValueError` raised for an unrecognized temperature unit. -/
def convert_units (reading : VitalReading) (vital_type : String) : Except String ℚ :=
  if vital_type = "temperature" ∧ py_upper reading.unit = "C" then
    .ok (reading.value * 9 / 5 + 32)
  else if vital_type = "temperature" ∧ py_upper reading.unit ≠ "C" ∧
      py_upper reading.unit ≠ "F" then
    .error ("Invalid temperature unit: " ++ reading.unit)
  else .ok reading.value

/-- The `conditions_map` of the `converted_value < min_val` branch of
`assess_vital` (lines 176-181), with its `.get(vital_type, NORMAL)`
default. -/
def conditions_map_below (vital_type : String) : VitalCondition :=
  if vital_type = "temperature" then .HYPO_THERMIA
  else if vital_type = "pulseRate" then .BRADY_CARDIA
  else if vital_type = "spo2" then .LOW_OXYGEN
  else .NORMAL

/-- The `conditions_map` of the `min_val <= converted_value <= near_min`
branch of `assess_vital` (lines 182-188). -/
def conditions_map_near_low (vital_type : String) : VitalCondition :=
  if vital_type = "temperature" then .NEAR_HYPO
  else if vital_type = "pulseRate" then .NEAR_BRADY
  else if vital_type = "spo2" then .NEAR_LOW_OXYGEN
  else .NORMAL

/-- The `conditions_map` of the `near_max <= converted_value < max_val`
branch of `assess_vital` (lines 189-195). -/
def conditions_map_near_high (vital_type : String) : VitalCondition :=
  if vital_type = "temperature" then .NEAR_HYPER
  else if vital_type = "pulseRate" then .NEAR_TACHY
  else if vital_type = "spo2" then .NEAR_HIGH_OXYGEN
  else .NORMAL

/-- The `conditions_map` of the `converted_value >= max_val` branch of
`assess_vital` (lines 196-202). -/
def conditions_map_above (vital_type : String) : VitalCondition :=
  if vital_type = "temperature" then .HYPER_THERMIA
  else if vital_type = "pulseRate" then .TACHY_CARDIA
  else if vital_type = "spo2" then .HIGH_OXYGEN
  else .NORMAL

/-- The `if/elif` condition ladder of `assess_vital` (lines 175-204),
over the four boundaries `(b0, b1, b2, b3)` returned by
`calculate_warning_ranges`. -/
def assess_condition (vital_type : String) (b0 b1 b2 b3 v : ℚ) : VitalCondition :=
  if v < b0 then conditions_map_below vital_type
  else if b0 ≤ v ∧ v ≤ b1 then conditions_map_near_low vital_type
  else if b2 ≤ v ∧ v < b3 then conditions_map_near_high vital_type
  else if v ≥ b3 then conditions_map_above vital_type
  else .NORMAL

/-- The condition ladder applied to the boundaries computed from a
`VitalLimits` (lines 172-204 of `assess_vital`). -/
def classify_with_limits (vital_type : String) (l : VitalLimits) (v : ℚ) :
    VitalCondition :=
  match l.calculate_warning_ranges with
  | (b0, b1, b2, b3) => assess_condition vital_type b0 b1 b2 b3 v

/-- Condition computed by `assess_vital` for an already converted value:
patient limits, then warning boundaries, then the condition ladder. -/
def assess_condition_for (p : PatientProfile) (vital_type : String) (v : ℚ) :
    VitalCondition :=
  classify_with_limits vital_type (p.get_vital_limits vital_type) v

/-- English message table `self.messages['en']` of `AdvancedMonitor`
(lines 109-123). -/
def adv_messages_en : VitalCondition → String
  | .HYPO_THERMIA => "🚨 CRITICAL: Severe hypothermia detected (temp < 95°F)"
  | .NEAR_HYPO => "⚠️ WARNING: Temperature approaching hypothermia range"
  | .NORMAL => ""
  | .NEAR_HYPER => "⚠️ WARNING: Temperature approaching hyperthermia range"
  | .HYPER_THERMIA => "🚨 CRITICAL: Severe hyperthermia detected (temp > 102°F)"
  | .BRADY_CARDIA => "🚨 CRITICAL: Severe bradycardia detected"
  | .NEAR_BRADY => "⚠️ WARNING: Heart rate approaching bradycardia range"
  | .NEAR_TACHY => "⚠️ WARNING: Heart rate approaching tachycardia range"
  | .TACHY_CARDIA => "🚨 CRITICAL: Severe tachycardia detected"
  | .LOW_OXYGEN => "🚨 CRITICAL: Severe hypoxemia detected"
  | .NEAR_LOW_OXYGEN => "⚠️ WARNING: Oxygen saturation approaching critical low"
  | .NEAR_HIGH_OXYGEN => "⚠️ WARNING: Oxygen saturation unusually high"
  | .HIGH_OXYGEN => "🚨 CRITICAL: Hyperoxemia detected"

/-- German message table `self.messages['de']` of `AdvancedMonitor`
(lines 124-138). -/
def adv_messages_de : VitalCondition → String
  | .HYPO_THERMIA => "🚨 KRITISCH: Schwere Unterkühlung erkannt"
  | .NEAR_HYPO => "⚠️ WARNUNG: Temperatur nähert sich Unterkühlungsbereich"
  | .NORMAL => ""
  | .NEAR_HYPER => "⚠️ WARNUNG: Temperatur nähert sich Überhitzungsbereich"
  | .HYPER_THERMIA => "🚨 KRITISCH: Schwere Überhitzung erkannt"
  | .BRADY_CARDIA => "🚨 KRITISCH: Schwere Bradykardie erkannt"
  | .NEAR_BRADY => "⚠️ WARNUNG: Herzfrequenz nähert sich Bradykardie"
  | .NEAR_TACHY => "⚠️ WARNUNG: Herzfrequenz nähert sich Tachykardie"
  | .TACHY_CARDIA => "🚨 KRITISCH: Schwere Tachykardie erkannt"
  | .LOW_OXYGEN => "🚨 KRITISCH: Schwere Hypoxämie erkannt"
  | .NEAR_LOW_OXYGEN => "⚠️ WARNUNG: Sauerstoffsättigung nähert sich kritischem Niveau"
  | .NEAR_HIGH_OXYGEN => "⚠️ WARNUNG: Sauerstoffsättigung ungewöhnlich hoch"
  | .HIGH_OXYGEN => "🚨 KRITISCH: Hyperoxämie erkannt"

/-- `self.messages` keyed by language code. -/
def adv_messages_table (language : String) : Option (VitalCondition → String) :=
  if language = "en" then some adv_messages_en
  else if language = "de" then some adv_messages_de
  else none

/-- `self.messages[self.language].get(condition, "")` as used by
`assess_vital` (line 207).  `self.language` is only ever `'en'` or
`'de'` (it starts as `'en'` and `set_language` rejects anything else);
for those codes the missing-key dictionary lookup cannot occur. -/
def adv_message (language : String) (condition : VitalCondition) : String :=
  ((adv_messages_table language).getD (fun _ => "")) condition

/-- `AdvancedMonitor.set_language` (lines 141-147): returns the new
`self.language` on success, raises `ValueError` otherwise. -/
def set_language_advanced (language_code : String) : Except String String :=
  if (adv_messages_table language_code).isSome then .ok language_code
  else .error ("Language '" ++ language_code ++ "' not supported")

/-- `AdvancedMonitor.assess_vital` (lines 164-217): unit conversion,
patient-specific limits, the condition ladder, then the message lookup.
A conversion error propagates (it is re-raised by the source's
`except` block). -/
def assess_vital (p : PatientProfile) (language : String) (vital_type : String)
    (reading : VitalReading) : Except String (VitalCondition × String) :=
  match convert_units reading vital_type with
  | .error e => .error e
  | .ok v =>
    let condition := assess_condition_for p vital_type v
    .ok (condition, adv_message language condition)

/-- Does `needle` occur as a contiguous run of `hay`?  (Python's
`needle in hay` on strings, used by `monitor_vitals` to tag messages.) -/
def subOccurs (needle : List Char) : List Char → Bool
  | [] => needle.isEmpty
  | c :: rest => needle.isPrefixOf (c :: rest) || subOccurs needle rest

/-- `needle in hay` on strings. -/
def strContains (hay needle : String) : Bool :=
  subOccurs needle.data hay.data

/-- One entry of the `results['assessments']` dict built by
`monitor_vitals`: either a full assessment, or the
`{'error': ..., 'condition': 'ERROR'}` record of a failed vital. -/
inductive AssessRecord where
  | assessed (value : ℚ) (unit : String) (condition : VitalCondition) (message : String)
  | failure (detail : String)
deriving DecidableEq

/-- One value of the `vitals` mapping passed to `monitor_vitals`: a
ready-made `VitalReading`, or a dict with optional keys. -/
inductive VitalInput where
  | reading (r : VitalReading)
  | record (value : Option ℚ) (unit : Option String) (source : Option String)

/-- The `VitalReading`-construction step of `monitor_vitals`
(lines 237-244): a dict without a `'value'` key raises `KeyError`
(caught by the per-vital handler before any history append). -/
def mkReading : VitalInput → Except String VitalReading
  | .reading r => .ok r
  | .record none _ _ => .error "KeyError: 'value'"
  | .record (some v) u s => .ok ⟨v, u.getD "", s.getD "manual"⟩

/-- `self.vital_history`: vital type → ordered list of readings.
Modelled as an association list with unique keys (Python dict); lookups
take the first matching key. -/
abbrev Hist := List (String × List VitalReading)

/-- `self.vital_history.get(vital_type, [])`. -/
def histGet (h : Hist) (vital_type : String) : List VitalReading :=
  (List.lookup vital_type h).getD []

/-- Lines 246-249 of `monitor_vitals`: create the key if missing, then
append the reading. -/
def histAppend (h : Hist) (vital_type : String) (r : VitalReading) : Hist :=
  if (List.lookup vital_type h).isSome then
    h.map (fun p => if p.1 = vital_type then (p.1, p.2 ++ [r]) else p)
  else h ++ [(vital_type, [r])]

/-- The body of the per-vital `try` block of `monitor_vitals`
(lines 235-275): build the reading, append it to history, assess, and
produce either an assessment entry or an error entry.  The history is
returned as left by the run: unchanged when construction failed, with
the reading appended when construction succeeded — even if assessment
then failed. -/
def process_vital (p : PatientProfile) (language : String) (h : Hist)
    (vital_type : String) (vi : VitalInput) : Hist × AssessRecord :=
  match mkReading vi with
  | .error e => (h, .failure e)
  | .ok r =>
    let h' := histAppend h vital_type r
    match assess_vital p language vital_type r with
    | .error e => (h', .failure e)
    | .ok (c, m) => (h', .assessed r.value r.unit c m)

/-- The loop state of `monitor_vitals`: history plus the accumulating
report fields and the two severity counters. -/
structure MonState where
  history : Hist
  assessments : List (String × AssessRecord)
  critical_alerts : List (String × String)
  warnings : List (String × String)
  critical_count : Nat
  warning_count : Nat

/-- One iteration of the `for vital_type, vital_data in vitals.items()`
loop of `monitor_vitals`, including the message categorization of
lines 262-268. -/
def monitor_step (p : PatientProfile) (language : String) (st : MonState)
    (item : String × VitalInput) : MonState :=
  let res := process_vital p language st.history item.1 item.2
  match res.2 with
  | .assessed v u c m =>
    if strContains m "CRITICAL" || strContains m "KRITISCH" then
      { st with
        history := res.1
        assessments := st.assessments ++ [(item.1, .assessed v u c m)]
        critical_alerts := st.critical_alerts ++ [(item.1, m)]
        critical_count := st.critical_count + 1 }
    else if strContains m "WARNING" || strContains m "WARNUNG" then
      { st with
        history := res.1
        assessments := st.assessments ++ [(item.1, .assessed v u c m)]
        warnings := st.warnings ++ [(item.1, m)]
        warning_count := st.warning_count + 1 }
    else
      { st with
        history := res.1
        assessments := st.assessments ++ [(item.1, .assessed v u c m)] }
  | .failure e =>
    { st with
      history := res.1
      assessments := st.assessments ++ [(item.1, .failure e)] }

/-- The report built by `monitor_vitals` (timestamp and patient
descriptor omitted; `history` is the monitor's `vital_history` after
the call). -/
structure MonitorResult where
  assessments : List (String × AssessRecord)
  overall_status : String
  critical_alerts : List (String × String)
  warnings : List (String × String)
  recommendations : List String
  history : Hist

/-- `AdvancedMonitor.monitor_vitals` (lines 219-291).  The batch is an
ordered list of `(vital_type, input)` pairs (Python dict iteration
order); `h0` is the monitor's history before the call. -/
def monitor_vitals (p : PatientProfile) (language : String) (h0 : Hist)
    (vitals : List (String × VitalInput)) : MonitorResult :=
  let st := vitals.foldl (monitor_step p language) ⟨h0, [], [], [], 0, 0⟩
  { assessments := st.assessments
    overall_status :=
      if st.critical_count > 0 then "CRITICAL"
      else if st.warning_count > 0 then "WARNING"
      else "NORMAL"
    critical_alerts := st.critical_alerts
    warnings := st.warnings
    recommendations :=
      (if st.critical_count > 0 then ["Immediate medical attention required"]
       else if st.warning_count > 0 then
         ["Monitor closely and consider medical consultation"]
       else []) ++
      (if (histGet st.history "temperature").length > 1 then
         ["Trending data available for analysis"]
       else [])
    history := st.history }

/-- `AdvancedMonitor.get_vital_trends` (lines 293-307): the most recent
`limit` readings of one vital (the source returns them as dicts of
value/unit/timestamp/source; we return the readings).  `l[-limit:]`
with `limit = 0` is the whole list in Python. -/
def get_vital_trends (h : Hist) (vital_type : String) (limit : Nat := 10) :
    List VitalReading :=
  match List.lookup vital_type h with
  | none => []
  | some l => if limit = 0 then l else l.drop (l.length - limit)

/-- A per-vital report entry whose message carries the critical tag
(`'CRITICAL' in message or 'KRITISCH' in message`); error entries never
do. -/
def isCriticalRec : AssessRecord → Bool
  | .assessed _ _ _ m => strContains m "CRITICAL" || strContains m "KRITISCH"
  | .failure _ => false

/-- A per-vital report entry whose message carries the warning tag and
not the critical tag (the source's `elif`); error entries never do. -/
def isWarningRec : AssessRecord → Bool
  | .assessed _ _ _ m =>
    !(strContains m "CRITICAL" || strContains m "KRITISCH") &&
      (strContains m "WARNING" || strContains m "WARNUNG")
  | .failure _ => false

/-! ## Supporting lemmas -/

/-- The five branches of the condition ladder, each on its value
region (for ordered boundaries). -/
lemma assess_condition_region (vt : String) (b0 b1 b2 b3 v : ℚ)
    (h01 : b0 ≤ b1) (h12 : b1 < b2) (h23 : b2 ≤ b3) :
    (v < b0 → assess_condition vt b0 b1 b2 b3 v = conditions_map_below vt) ∧
    (b0 ≤ v → v ≤ b1 → assess_condition vt b0 b1 b2 b3 v = conditions_map_near_low vt) ∧
    (b1 < v → v < b2 → assess_condition vt b0 b1 b2 b3 v = .NORMAL) ∧
    (b2 ≤ v → v < b3 → assess_condition vt b0 b1 b2 b3 v = conditions_map_near_high vt) ∧
    (b3 ≤ v → assess_condition vt b0 b1 b2 b3 v = conditions_map_above vt) := by
  unfold assess_condition
  refine ⟨fun hA => ?_, fun hB hB2 => ?_, fun hC hC2 => ?_, fun hD hD2 => ?_, fun hE => ?_⟩
  · rw [if_pos hA]
  · rw [if_neg (by linarith), if_pos ⟨hB, hB2⟩]
  · rw [if_neg (by linarith), if_neg (by rintro ⟨-, h⟩; linarith),
      if_neg (by rintro ⟨h, -⟩; linarith), if_neg (by simp; linarith)]
  · rw [if_neg (by linarith), if_neg (by rintro ⟨-, h⟩; linarith), if_pos ⟨hD, hD2⟩]
  · rw [if_neg (by linarith), if_neg (by rintro ⟨-, h⟩; linarith),
      if_neg (by rintro ⟨-, h⟩; linarith), if_pos (by simpa using hE)]

/-- Exact characterization of each tier of the condition ladder, given
ordered boundaries and pairwise-distinct tier labels. -/
lemma assess_condition_iff_of (vt : String) (b0 b1 b2 b3 v : ℚ)
    (h01 : b0 ≤ b1) (h12 : b1 < b2) (h23 : b2 ≤ b3)
    (cb cnl cnh ca : VitalCondition)
    (hcb : conditions_map_below vt = cb) (hcnl : conditions_map_near_low vt = cnl)
    (hcnh : conditions_map_near_high vt = cnh) (hca : conditions_map_above vt = ca)
    (d1 : cb ≠ cnl) (d2 : cb ≠ cnh) (d3 : cb ≠ ca) (d4 : cnl ≠ cnh) (d5 : cnl ≠ ca)
    (d6 : cnh ≠ ca) (d7 : cb ≠ .NORMAL) (d8 : cnl ≠ .NORMAL) (d9 : cnh ≠ .NORMAL)
    (d10 : ca ≠ .NORMAL) :
    (assess_condition vt b0 b1 b2 b3 v = cb ↔ v < b0) ∧
    (assess_condition vt b0 b1 b2 b3 v = cnl ↔ b0 ≤ v ∧ v ≤ b1) ∧
    (assess_condition vt b0 b1 b2 b3 v = .NORMAL ↔ b1 < v ∧ v < b2) ∧
    (assess_condition vt b0 b1 b2 b3 v = cnh ↔ b2 ≤ v ∧ v < b3) ∧
    (assess_condition vt b0 b1 b2 b3 v = ca ↔ b3 ≤ v) := by
  obtain ⟨r1, r2, r3, r4, r5⟩ := assess_condition_region vt b0 b1 b2 b3 v h01 h12 h23
  rcases lt_or_le v b0 with hA | hA
  · rw [r1 hA, hcb]
    refine ⟨?_, ?_, ?_, ?_, ?_⟩ <;> constructor <;> intro h <;>
      first
        | rfl
        | linarith
        | (exact absurd h (by assumption))
        | (exact absurd h.symm (by assumption))
        | (exfalso; rcases h with ⟨hx, hy⟩; linarith)
        | (exfalso; linarith)
        | (constructor <;> linarith)
  · rcases le_or_lt v b1 with hB | hB
    · rw [r2 hA hB, hcnl]
      refine ⟨?_, ?_, ?_, ?_, ?_⟩ <;> constructor <;> intro h <;>
        first
          | rfl
          | linarith
          | (exact absurd h (by assumption))
          | (exact absurd h.symm (by assumption))
          | (exfalso; rcases h with ⟨hx, hy⟩; linarith)
          | (exfalso; linarith)
          | (constructor <;> linarith)
    · rcases lt_or_le v b2 with hC | hC
      · rw [r3 hB hC]
        refine ⟨?_, ?_, ?_, ?_, ?_⟩ <;> constructor <;> intro h <;>
          first
            | rfl
            | linarith
            | (exact absurd h (by assumption))
            | (exact absurd h.symm (by assumption))
            | (exfalso; rcases h with ⟨hx, hy⟩; linarith)
            | (exfalso; linarith)
            | (constructor <;> linarith)
      · rcases lt_or_le v b3 with hD | hD
        · rw [r4 hC hD, hcnh]
          refine ⟨?_, ?_, ?_, ?_, ?_⟩ <;> constructor <;> intro h <;>
            first
              | rfl
              | linarith
              | (exact absurd h (by assumption))
              | (exact absurd h.symm (by assumption))
              | (exfalso; rcases h with ⟨hx, hy⟩; linarith)
              | (exfalso; linarith)
              | (constructor <;> linarith)
        · rw [r5 hD, hca]
          refine ⟨?_, ?_, ?_, ?_, ?_⟩ <;> constructor <;> intro h <;>
            first
              | rfl
              | linarith
              | (exact absurd h (by assumption))
              | (exact absurd h.symm (by assumption))
              | (exfalso; rcases h with ⟨hx, hy⟩; linarith)
              | (exfalso; linarith)
              | (constructor <;> linarith)

/-- The enhanced temperature classifier only ever produces one of
temperature's five tiers. -/
lemma temp_mem (v : ℚ) :
    map_value_to_condition v TEMP_RANGES ∈
      ([.HYPO_THERMIA, .NEAR_HYPO, .NORMAL, .NEAR_HYPER, .HYPER_THERMIA] :
        List VitalCondition) := by
  simp only [map_value_to_condition, TEMP_RANGES, rowMatch, Bound.lowLE, Bound.highGE]
  split_ifs <;> simp

/-- The enhanced pulse classifier only ever produces one of pulse
rate's five tiers. -/
lemma pulse_mem (v : ℚ) :
    map_value_to_condition v PULSE_RANGES ∈
      ([.BRADY_CARDIA, .NEAR_BRADY, .NORMAL, .NEAR_TACHY, .TACHY_CARDIA] :
        List VitalCondition) := by
  simp only [map_value_to_condition, PULSE_RANGES, rowMatch, Bound.lowLE, Bound.highGE]
  split_ifs <;> simp

/-- The enhanced spo2 classifier only ever produces one of spo2's five
tiers. -/
lemma spo2_mem (v : ℚ) :
    map_value_to_condition v SPO2_RANGES ∈
      ([.LOW_OXYGEN, .NEAR_LOW_OXYGEN, .NORMAL, .NEAR_HIGH_OXYGEN, .HIGH_OXYGEN] :
        List VitalCondition) := by
  simp only [map_value_to_condition, SPO2_RANGES, rowMatch, Bound.lowLE, Bound.highGE]
  split_ifs <;> simp

/-- Default-profile temperature boundaries: `[95, 102]` at tolerance
`1.5` gives warning boundaries `95.105` and `101.895`. -/
lemma temp_ranges_eq :
    (PatientProfile.get_vital_limits ⟨none, "adult"⟩ "temperature").calculate_warning_ranges
      = (95, 95.105, 101.895, 102) := by
  simp [PatientProfile.get_vital_limits, VitalLimits.calculate_warning_ranges, Prod.ext_iff]
  norm_num

/-- Default-profile pulse boundaries: `[60, 100]` at tolerance `1.5`
gives warning boundaries `60.6` and `99.4`. -/
lemma pulse_ranges_eq :
    (PatientProfile.get_vital_limits ⟨none, "adult"⟩ "pulseRate").calculate_warning_ranges
      = (60, 60.6, 99.4, 100) := by
  simp [PatientProfile.get_vital_limits, VitalLimits.calculate_warning_ranges, Prod.ext_iff]
  norm_num

/-- Default-profile spo2 boundaries: `[90, 100]` at tolerance `1.5`
gives warning boundaries `90.15` and `99.85`. -/
lemma spo2_ranges_eq :
    (PatientProfile.get_vital_limits ⟨none, "adult"⟩ "spo2").calculate_warning_ranges
      = (90, 90.15, 99.85, 100) := by
  simp [PatientProfile.get_vital_limits, VitalLimits.calculate_warning_ranges, Prod.ext_iff]
  norm_num

/-- Region characterization of the advanced temperature classifier for
the default adult profile. -/
lemma adult_iff_temperature (v : ℚ) :
    (assess_condition_for ⟨none, "adult"⟩ "temperature" v = .HYPO_THERMIA ↔ v < 95) ∧
    (assess_condition_for ⟨none, "adult"⟩ "temperature" v = .NEAR_HYPO ↔
      95 ≤ v ∧ v ≤ 95.105) ∧
    (assess_condition_for ⟨none, "adult"⟩ "temperature" v = .NORMAL ↔
      95.105 < v ∧ v < 101.895) ∧
    (assess_condition_for ⟨none, "adult"⟩ "temperature" v = .NEAR_HYPER ↔
      101.895 ≤ v ∧ v < 102) ∧
    (assess_condition_for ⟨none, "adult"⟩ "temperature" v = .HYPER_THERMIA ↔ 102 ≤ v) := by
  have he : assess_condition_for ⟨none, "adult"⟩ "temperature" v
      = assess_condition "temperature" 95 95.105 101.895 102 v := by
    unfold assess_condition_for classify_with_limits
    rw [temp_ranges_eq]
  rw [he]
  exact assess_condition_iff_of "temperature" 95 95.105 101.895 102 v
    (by norm_num) (by norm_num) (by norm_num)
    .HYPO_THERMIA .NEAR_HYPO .NEAR_HYPER .HYPER_THERMIA
    rfl rfl rfl rfl
    (by decide) (by decide) (by decide) (by decide) (by decide)
    (by decide) (by decide) (by decide) (by decide) (by decide)

/-- Region characterization of the advanced pulse classifier for the
default adult profile. -/
lemma adult_iff_pulse (v : ℚ) :
    (assess_condition_for ⟨none, "adult"⟩ "pulseRate" v = .BRADY_CARDIA ↔ v < 60) ∧
    (assess_condition_for ⟨none, "adult"⟩ "pulseRate" v = .NEAR_BRADY ↔
      60 ≤ v ∧ v ≤ 60.6) ∧
    (assess_condition_for ⟨none, "adult"⟩ "pulseRate" v = .NORMAL ↔
      60.6 < v ∧ v < 99.4) ∧
    (assess_condition_for ⟨none, "adult"⟩ "pulseRate" v = .NEAR_TACHY ↔
      99.4 ≤ v ∧ v < 100) ∧
    (assess_condition_for ⟨none, "adult"⟩ "pulseRate" v = .TACHY_CARDIA ↔ 100 ≤ v) := by
  have he : assess_condition_for ⟨none, "adult"⟩ "pulseRate" v
      = assess_condition "pulseRate" 60 60.6 99.4 100 v := by
    unfold assess_condition_for classify_with_limits
    rw [pulse_ranges_eq]
  rw [he]
  exact assess_condition_iff_of "pulseRate" 60 60.6 99.4 100 v
    (by norm_num) (by norm_num) (by norm_num)
    .BRADY_CARDIA .NEAR_BRADY .NEAR_TACHY .TACHY_CARDIA
    rfl rfl rfl rfl
    (by decide) (by decide) (by decide) (by decide) (by decide)
    (by decide) (by decide) (by decide) (by decide) (by decide)

/-- Region characterization of the advanced spo2 classifier for the
default adult profile. -/
lemma adult_iff_spo2 (v : ℚ) :
    (assess_condition_for ⟨none, "adult"⟩ "spo2" v = .LOW_OXYGEN ↔ v < 90) ∧
    (assess_condition_for ⟨none, "adult"⟩ "spo2" v = .NEAR_LOW_OXYGEN ↔
      90 ≤ v ∧ v ≤ 90.15) ∧
    (assess_condition_for ⟨none, "adult"⟩ "spo2" v = .NORMAL ↔
      90.15 < v ∧ v < 99.85) ∧
    (assess_condition_for ⟨none, "adult"⟩ "spo2" v = .NEAR_HIGH_OXYGEN ↔
      99.85 ≤ v ∧ v < 100) ∧
    (assess_condition_for ⟨none, "adult"⟩ "spo2" v = .HIGH_OXYGEN ↔ 100 ≤ v) := by
  have he : assess_condition_for ⟨none, "adult"⟩ "spo2" v
      = assess_condition "spo2" 90 90.15 99.85 100 v := by
    unfold assess_condition_for classify_with_limits
    rw [spo2_ranges_eq]
  rw [he]
  exact assess_condition_iff_of "spo2" 90 90.15 99.85 100 v
    (by norm_num) (by norm_num) (by norm_num)
    .LOW_OXYGEN .NEAR_LOW_OXYGEN .NEAR_HIGH_OXYGEN .HIGH_OXYGEN
    rfl rfl rfl rfl
    (by decide) (by decide) (by decide) (by decide) (by decide)
    (by decide) (by decide) (by decide) (by decide) (by decide)

/-- The `monitor_vitals` loop keeps its two severity counters equal to
the number of critical-tagged (resp. warning-tagged) entries among the
assessments accumulated so far. -/
lemma monitor_foldl_counts (p : PatientProfile) (lang : String)
    (vitals : List (String × VitalInput)) (st : MonState)
    (hc : st.critical_count = st.assessments.countP (fun x => isCriticalRec x.2))
    (hw : st.warning_count = st.assessments.countP (fun x => isWarningRec x.2)) :
    (vitals.foldl (monitor_step p lang) st).critical_count
      = (vitals.foldl (monitor_step p lang) st).assessments.countP
          (fun x => isCriticalRec x.2) ∧
    (vitals.foldl (monitor_step p lang) st).warning_count
      = (vitals.foldl (monitor_step p lang) st).assessments.countP
          (fun x => isWarningRec x.2) := by
  induction vitals generalizing st with
  | nil => exact ⟨hc, hw⟩
  | cons it rest ih =>
    simp only [List.foldl_cons]
    apply ih <;>
      (unfold monitor_step
       dsimp only
       cases hres : (process_vital p lang st.history it.1 it.2).2 with
       | assessed v u c m =>
         dsimp only
         split_ifs with h1 h2 <;>
           simp_all [List.countP_append, isCriticalRec, isWarningRec,
             List.countP_cons] <;>
           (try (rintro ha hb; rcases h1 with h1 | h1 <;> simp_all))
       | failure e =>
         dsimp only
         simp [List.countP_append, isCriticalRec, isWarningRec, hc, hw,
           List.countP_cons])

/-! ## Claim theorems -/

/-- C1 (counterexample): temperature `94.995` is strictly below the
range minimum `95`, yet the enhanced table classifier puts it in the
`NORMAL` tier, not the below-critical tier — the tables leave a gap
`(94.99, 95)` between the `HYPO_THERMIA` and `NEAR_HYPO` bands, so the
five bands do not partition the line as the claim states. -/
theorem C1_gap_counterexample :
    (94.995 : ℚ) < 95 ∧
    map_value_to_condition (94.995 : ℚ) TEMP_RANGES = .NORMAL ∧
    map_value_to_condition (94.995 : ℚ) TEMP_RANGES ≠ .HYPO_THERMIA := by
  norm_num [map_value_to_condition, TEMP_RANGES, rowMatch, Bound.lowLE, Bound.highGE]
  decide

/-- C1 (amended): tier classification is total — for every value the
enhanced table classifier produces exactly one of that vital's five
tiers (`NORMAL` being the fall-through for values in the gaps between
table rows) — and the advanced classifier genuinely partitions the real
line for all three vital types at the default adult limits:
below-critical iff `v < min`, near-low iff `min ≤ v ≤ min + tol`,
normal iff `min + tol < v < max - tol`, near-high iff
`max - tol ≤ v < max`, above-critical iff `v ≥ max`. -/
theorem C1_tier_partition_amended : ∀ v : ℚ,
    (map_value_to_condition v TEMP_RANGES ∈
      ([.HYPO_THERMIA, .NEAR_HYPO, .NORMAL, .NEAR_HYPER, .HYPER_THERMIA] :
        List VitalCondition)) ∧
    (map_value_to_condition v PULSE_RANGES ∈
      ([.BRADY_CARDIA, .NEAR_BRADY, .NORMAL, .NEAR_TACHY, .TACHY_CARDIA] :
        List VitalCondition)) ∧
    (map_value_to_condition v SPO2_RANGES ∈
      ([.LOW_OXYGEN, .NEAR_LOW_OXYGEN, .NORMAL, .NEAR_HIGH_OXYGEN, .HIGH_OXYGEN] :
        List VitalCondition)) ∧
    ((assess_condition_for ⟨none, "adult"⟩ "temperature" v = .HYPO_THERMIA ↔ v < 95) ∧
     (assess_condition_for ⟨none, "adult"⟩ "temperature" v = .NEAR_HYPO ↔
       95 ≤ v ∧ v ≤ 95.105) ∧
     (assess_condition_for ⟨none, "adult"⟩ "temperature" v = .NORMAL ↔
       95.105 < v ∧ v < 101.895) ∧
     (assess_condition_for ⟨none, "adult"⟩ "temperature" v = .NEAR_HYPER ↔
       101.895 ≤ v ∧ v < 102) ∧
     (assess_condition_for ⟨none, "adult"⟩ "temperature" v = .HYPER_THERMIA ↔ 102 ≤ v)) ∧
    ((assess_condition_for ⟨none, "adult"⟩ "pulseRate" v = .BRADY_CARDIA ↔ v < 60) ∧
     (assess_condition_for ⟨none, "adult"⟩ "pulseRate" v = .NEAR_BRADY ↔
       60 ≤ v ∧ v ≤ 60.6) ∧
     (assess_condition_for ⟨none, "adult"⟩ "pulseRate" v = .NORMAL ↔
       60.6 < v ∧ v < 99.4) ∧
     (assess_condition_for ⟨none, "adult"⟩ "pulseRate" v = .NEAR_TACHY ↔
       99.4 ≤ v ∧ v < 100) ∧
     (assess_condition_for ⟨none, "adult"⟩ "pulseRate" v = .TACHY_CARDIA ↔ 100 ≤ v)) ∧
    ((assess_condition_for ⟨none, "adult"⟩ "spo2" v = .LOW_OXYGEN ↔ v < 90) ∧
     (assess_condition_for ⟨none, "adult"⟩ "spo2" v = .NEAR_LOW_OXYGEN ↔
       90 ≤ v ∧ v ≤ 90.15) ∧
     (assess_condition_for ⟨none, "adult"⟩ "spo2" v = .NORMAL ↔
       90.15 < v ∧ v < 99.85) ∧
     (assess_condition_for ⟨none, "adult"⟩ "spo2" v = .NEAR_HIGH_OXYGEN ↔
       99.85 ≤ v ∧ v < 100) ∧
     (assess_condition_for ⟨none, "adult"⟩ "spo2" v = .HIGH_OXYGEN ↔ 100 ≤ v)) :=
  fun v => ⟨temp_mem v, pulse_mem v, spo2_mem v,
    adult_iff_temperature v, adult_iff_pulse v, adult_iff_spo2 v⟩

/-- For sane limits (positive width, tolerance percentage in
`[0, 100)`), a value exactly at `min` lands in the near-low branch of
the condition ladder and a value exactly at `max` in the above-critical
branch. -/
lemma classify_min_max (vt : String) (l : VitalLimits)
    (h1 : l.min_val < l.max_val) (h2 : 0 ≤ l.warning_tolerance)
    (h3 : l.warning_tolerance < 100) :
    classify_with_limits vt l l.min_val = conditions_map_near_low vt ∧
    classify_with_limits vt l l.max_val = conditions_map_above vt := by
  have htol : 0 ≤ (l.max_val - l.min_val) * l.warning_tolerance / 100 :=
    div_nonneg (mul_nonneg (by linarith) h2) (by norm_num)
  have htlt : (l.max_val - l.min_val) * l.warning_tolerance / 100
      < l.max_val - l.min_val := by
    rw [div_lt_iff₀ (by norm_num : (0:ℚ) < 100)]
    have hw := mul_lt_mul_of_pos_left h3
      (show (0:ℚ) < l.max_val - l.min_val by linarith)
    linarith
  unfold classify_with_limits VitalLimits.calculate_warning_ranges assess_condition
  dsimp only
  constructor
  · rw [if_neg (lt_irrefl _), if_pos ⟨le_refl _, by linarith⟩]
  · rw [if_neg (by linarith), if_neg (by rintro ⟨-, hx⟩; linarith),
      if_neg (by rintro ⟨-, hx⟩; exact lt_irrefl _ hx), if_pos (le_refl _)]

/-- C2: in both modules a value exactly at the range minimum is a
low-side warning (NEAR_LOW family), not below-critical, and a value
exactly at the range maximum is above-critical, not a high-side
warning.  Stated for every limit range with positive width and
tolerance percentage in `[0, 100)` (advanced condition ladder), and for
the three enhanced range tables at their boundary values. -/
theorem C2_boundary_tie_break (l : VitalLimits) (h1 : l.min_val < l.max_val)
    (h2 : 0 ≤ l.warning_tolerance) (h3 : l.warning_tolerance < 100) :
    (classify_with_limits "temperature" l l.min_val = .NEAR_HYPO ∧
     classify_with_limits "temperature" l l.max_val = .HYPER_THERMIA) ∧
    (classify_with_limits "pulseRate" l l.min_val = .NEAR_BRADY ∧
     classify_with_limits "pulseRate" l l.max_val = .TACHY_CARDIA) ∧
    (classify_with_limits "spo2" l l.min_val = .NEAR_LOW_OXYGEN ∧
     classify_with_limits "spo2" l l.max_val = .HIGH_OXYGEN) ∧
    (map_value_to_condition 95 TEMP_RANGES = .NEAR_HYPO ∧
     map_value_to_condition 102 TEMP_RANGES = .HYPER_THERMIA) ∧
    (map_value_to_condition 60 PULSE_RANGES = .NEAR_BRADY ∧
     map_value_to_condition 100 PULSE_RANGES = .TACHY_CARDIA) ∧
    (map_value_to_condition 90 SPO2_RANGES = .NEAR_LOW_OXYGEN ∧
     map_value_to_condition 100 SPO2_RANGES = .HIGH_OXYGEN) := by
  refine ⟨classify_min_max "temperature" l h1 h2 h3,
    classify_min_max "pulseRate" l h1 h2 h3,
    classify_min_max "spo2" l h1 h2 h3, ⟨?_, ?_⟩, ⟨?_, ?_⟩, ⟨?_, ?_⟩⟩ <;>
      norm_num [map_value_to_condition, TEMP_RANGES, PULSE_RANGES, SPO2_RANGES,
        rowMatch, Bound.lowLE, Bound.highGE]

/-- Witness for C2 at the default pulse limits `[60, 100]` with
tolerance `1.5`: `60` classifies `NEAR_BRADY`, `100` classifies
`TACHY_CARDIA`. -/
theorem C2_boundary_tie_break_witness :
    classify_with_limits "pulseRate" ⟨60, 100, 1.5⟩ (60 : ℚ) = .NEAR_BRADY ∧
    classify_with_limits "pulseRate" ⟨60, 100, 1.5⟩ (100 : ℚ) = .TACHY_CARDIA :=
  (C2_boundary_tie_break ⟨60, 100, 1.5⟩ (by norm_num) (by norm_num) (by norm_num)).2.1

/-- C3 (counterexample): in the enhanced module the temperature low
warning band does not end at `95.105`: the value `96.5`, well above
`95.105`, still classifies `NEAR_HYPO` (the hard-coded band runs to
`96.53 = 95 + 1.5% of 102`, a percentage of the maximum, not of the
range width). -/
theorem C3_enhanced_band_counterexample :
    (95.105 : ℚ) < 96.5 ∧
    map_value_to_condition (96.5 : ℚ) TEMP_RANGES = .NEAR_HYPO ∧
    map_value_to_condition (96.5 : ℚ) TEMP_RANGES ≠ .NORMAL := by
  norm_num [map_value_to_condition, TEMP_RANGES, rowMatch, Bound.lowLE, Bound.highGE]
  decide

/-- C3 (amended): the advanced module's `calculate_warning_ranges`
computes exactly `b1 = min + tol`, `b2 = max - tol` with
`tol = (max - min) * warning_tolerance / 100`, giving `95.105` and
`101.895` for temperature limits `[95, 102]` at the default `1.5`; the
enhanced module's hard-coded tables instead use warning bands of width
`1.5% of the maximum` (temperature `NEAR_HYPO` runs to `96.53`, pulse
`NEAR_BRADY` to `61.5`). -/
theorem C3_warning_ranges_amended :
    (∀ l : VitalLimits, l.calculate_warning_ranges =
      (l.min_val,
       l.min_val + (l.max_val - l.min_val) * l.warning_tolerance / 100,
       l.max_val - (l.max_val - l.min_val) * l.warning_tolerance / 100,
       l.max_val)) ∧
    (⟨95, 102, 1.5⟩ : VitalLimits).calculate_warning_ranges
      = (95, 95.105, 101.895, 102) ∧
    (∀ v : ℚ, 95 ≤ v → v ≤ 96.53 →
      map_value_to_condition v TEMP_RANGES = .NEAR_HYPO) ∧
    (∀ v : ℚ, 60 ≤ v → v ≤ 61.5 →
      map_value_to_condition v PULSE_RANGES = .NEAR_BRADY) := by
  refine ⟨fun l => rfl, ?_, fun v h1 h2 => ?_, fun v h1 h2 => ?_⟩
  · norm_num [VitalLimits.calculate_warning_ranges, Prod.ext_iff]
  · simp only [map_value_to_condition, TEMP_RANGES, rowMatch, Bound.lowLE,
      Bound.highGE, true_and, and_true]
    split_ifs with ha hb <;>
      first
        | rfl
        | (exfalso; linarith)
        | (exact absurd ⟨h1, h2⟩ hb)
  · simp only [map_value_to_condition, PULSE_RANGES, rowMatch, Bound.lowLE,
      Bound.highGE, true_and, and_true]
    split_ifs with ha hb <;>
      first
        | rfl
        | (exfalso; linarith)
        | (exact absurd ⟨h1, h2⟩ hb)

/-- Witness for C3: the `[95, 102]` boundaries evaluate to `95.105` and
`101.895`, and temperature `96` (above `95.105`) is still `NEAR_HYPO`
in the enhanced table. -/
theorem C3_warning_ranges_amended_witness :
    (⟨95, 102, 1.5⟩ : VitalLimits).calculate_warning_ranges
      = (95, 95.105, 101.895, 102) ∧
    map_value_to_condition (96 : ℚ) TEMP_RANGES = .NEAR_HYPO :=
  ⟨C3_warning_ranges_amended.2.1,
   C3_warning_ranges_amended.2.2.1 96 (by norm_num) (by norm_num)⟩

/-- C4: the limit provider does not fail on an unknown vital type — for
every profile and every vital type other than the three known ones,
`get_vital_limits` silently returns the `.get` default
`VitalLimits(0, 100)` (the fallback §9 of the spec calls a latent
defect), e.g. for `bloodPressure`. -/
theorem C4_unknown_vital_fallback :
    (∀ (p : PatientProfile) (vt : String), vt ≠ "temperature" → vt ≠ "pulseRate" →
      vt ≠ "spo2" → p.get_vital_limits vt = ⟨0, 100, 1.5⟩) ∧
    PatientProfile.get_vital_limits ⟨none, "adult"⟩ "bloodPressure" = ⟨0, 100, 1.5⟩ := by
  have hgen : ∀ (p : PatientProfile) (vt : String), vt ≠ "temperature" →
      vt ≠ "pulseRate" → vt ≠ "spo2" → p.get_vital_limits vt = ⟨0, 100, 1.5⟩ := by
    intro p vt h1 h2 h3
    unfold PatientProfile.get_vital_limits
    dsimp only
    rw [if_neg h1, if_neg h2, if_neg h3]
  exact ⟨hgen, hgen ⟨none, "adult"⟩ "bloodPressure" (by decide) (by decide) (by decide)⟩

/-- Witness for C4: an age-carrying profile also gets the silent
`[0, 100]` default for the unknown vital type `bloodPressure`. -/
theorem C4_unknown_vital_fallback_witness :
    PatientProfile.get_vital_limits ⟨some 33, "adult"⟩ "bloodPressure" = ⟨0, 100, 1.5⟩ :=
  C4_unknown_vital_fallback.1 ⟨some 33, "adult"⟩ "bloodPressure"
    (by decide) (by decide) (by decide)

/-- C5: `calculate_warning_ranges` performs no tolerance validation and
raises nothing: whenever the tolerance percentage is at least `50`, it
returns boundaries whose NORMAL band is empty or negative
(`b2 ≤ b1`) instead of failing — e.g. limits `[0, 100]` with tolerance
`60` yield the crossed boundaries `(0, 60, 40, 100)`. -/
theorem C5_tolerance_no_validation :
    (∀ l : VitalLimits, 50 ≤ l.warning_tolerance → l.min_val < l.max_val →
      l.calculate_warning_ranges.2.2.1 ≤ l.calculate_warning_ranges.2.1) ∧
    (⟨0, 100, 60⟩ : VitalLimits).calculate_warning_ranges = (0, 60, 40, 100) := by
  constructor
  · intro l hw hr
    unfold VitalLimits.calculate_warning_ranges
    dsimp only
    have key : (l.max_val - l.min_val) * 50 ≤
        (l.max_val - l.min_val) * l.warning_tolerance :=
      mul_le_mul_of_nonneg_left hw (by linarith)
    linarith
  · norm_num [VitalLimits.calculate_warning_ranges, Prod.ext_iff]

/-- Witness for C5 at limits `[0, 100]` with tolerance `60`: the
computed `b2 = 40` is below `b1 = 60`. -/
theorem C5_tolerance_no_validation_witness :
    (⟨0, 100, 60⟩ : VitalLimits).calculate_warning_ranges.2.2.1 ≤
      (⟨0, 100, 60⟩ : VitalLimits).calculate_warning_ranges.2.1 :=
  C5_tolerance_no_validation.1 ⟨0, 100, 60⟩ (by norm_num) (by norm_num)

/-- C6 (counterexample): `fr` is outside the supported language set,
yet resolving a message for an explicit `fr` does not fail — the
enhanced `get_condition_message` silently falls back to the English
table. -/
theorem C6_silent_fallback_counterexample :
    MESSAGES_table "fr" = none ∧
    get_condition_message .HYPO_THERMIA (some "fr") "en" = MESSAGES_en .HYPO_THERMIA := by
  constructor
  · simp [MESSAGES_table]
  · simp [get_condition_message, MESSAGES_table]

/-- C6 (amended): setting an unsupported language raises the
`not supported` error in both modules (so the configured language can
never silently fall back), but calling the enhanced
`get_condition_message` directly with an unsupported explicit language
code silently falls back to the English table instead of failing. -/
theorem C6_language_amended :
    (∀ lang : String, MESSAGES_table lang = none →
      set_language_enhanced lang = .error ("Language '" ++ lang ++ "' not supported")) ∧
    (∀ lang : String, adv_messages_table lang = none →
      set_language_advanced lang = .error ("Language '" ++ lang ++ "' not supported")) ∧
    (∀ (c : VitalCondition) (lang cur : String), MESSAGES_table lang = none →
      get_condition_message c (some lang) cur = MESSAGES_en c) ∧
    MESSAGES_table "fr" = none ∧ adv_messages_table "fr" = none := by
  refine ⟨fun lang h => ?_, fun lang h => ?_, fun c lang cur h => ?_, ?_, ?_⟩
  · simp [set_language_enhanced, h]
  · simp [set_language_advanced, h]
  · simp [get_condition_message, h]
  · simp [MESSAGES_table]
  · simp [adv_messages_table]

/-- Witness for C6 at language code `fr`. -/
theorem C6_language_amended_witness :
    set_language_enhanced "fr" = .error ("Language '" ++ "fr" ++ "' not supported") ∧
    set_language_advanced "fr" = .error ("Language '" ++ "fr" ++ "' not supported") ∧
    get_condition_message .NORMAL (some "fr") "de" = MESSAGES_en .NORMAL :=
  ⟨C6_language_amended.1 "fr" C6_language_amended.2.2.2.1,
   C6_language_amended.2.1 "fr" C6_language_amended.2.2.2.2,
   C6_language_amended.2.2.1 .NORMAL "fr" "de" C6_language_amended.2.2.2.1⟩

/-- C7 (counterexample): the enhanced `translate_to_common_units` does
not fail on an unrecognized temperature unit — a reading in unit `K`
passes through unchanged (not converted, no error). -/
theorem C7_enhanced_passthrough_counterexample :
    translate_to_common_units 40 "K" "temperature" = 40 ∧
    translate_to_common_units 40 "K" "temperature" ≠ 40 * 9 / 5 + 32 := by
  constructor <;> simp [translate_to_common_units, py_upper] <;> norm_num

/-- C7 (amended): the advanced `convert_units` behaves exactly as
claimed — `C` converts via `f = c*9/5 + 32`, `F` passes through, any
other temperature unit raises `Invalid temperature unit`, and
non-temperature vitals pass through regardless of unit — while the
enhanced `translate_to_common_units` converts `C` and passes every
other unit string through unchanged (including unrecognized temperature
units) without ever failing. -/
theorem C7_unit_normalization_amended :
    (∀ (v : ℚ) (s : String), convert_units ⟨v, "C", s⟩ "temperature" = .ok (v * 9 / 5 + 32)) ∧
    (∀ (v : ℚ) (s : String), convert_units ⟨v, "F", s⟩ "temperature" = .ok v) ∧
    (∀ (v : ℚ) (s u : String), py_upper u ≠ "C" → py_upper u ≠ "F" →
      convert_units ⟨v, u, s⟩ "temperature" = .error ("Invalid temperature unit: " ++ u)) ∧
    (∀ (v : ℚ) (s u vt : String), vt ≠ "temperature" → convert_units ⟨v, u, s⟩ vt = .ok v) ∧
    (∀ (v : ℚ) (u : String), py_upper u ≠ "C" →
      translate_to_common_units v u "temperature" = v) ∧
    (∀ (v : ℚ) (u vt : String), vt ≠ "temperature" → translate_to_common_units v u vt = v) ∧
    (∀ v : ℚ, translate_to_common_units v "C" "temperature" = v * 9 / 5 + 32) := by
  refine ⟨fun v s => ?_, fun v s => ?_, fun v s u h1 h2 => ?_, fun v s u vt h => ?_,
    fun v u h => ?_, fun v u vt h => ?_, fun v => ?_⟩
  · simp [convert_units, py_upper]
  · simp [convert_units, py_upper]
  · simp [convert_units, h1, h2]
  · simp [convert_units, h]
  · simp [translate_to_common_units, h]
  · simp [translate_to_common_units, h]
  · simp [translate_to_common_units, py_upper]

/-- Witness for C7: Celsius 37 converts to `98.6`, unit `K` raises, a
pulse reading in unit `C` passes through, and the enhanced normalizer
passes unit `X` through. -/
theorem C7_unit_normalization_amended_witness :
    convert_units ⟨37, "C", "manual"⟩ "temperature" = .ok (37 * 9 / 5 + 32) ∧
    convert_units ⟨98.6, "K", "manual"⟩ "temperature"
      = .error ("Invalid temperature unit: " ++ "K") ∧
    convert_units ⟨72, "C", "manual"⟩ "pulseRate" = .ok 72 ∧
    translate_to_common_units 40 "X" "temperature" = 40 :=
  ⟨C7_unit_normalization_amended.1 37 "manual",
   C7_unit_normalization_amended.2.2.1 98.6 "manual" "K" (by decide) (by decide),
   C7_unit_normalization_amended.2.2.2.1 72 "manual" "C" "pulseRate" (by decide),
   C7_unit_normalization_amended.2.2.2.2.1 40 "X" (by decide)⟩

/-- Appending to the entry of `vt` updates exactly what the first
lookup of `vt` sees. -/
lemma lookup_map_update (h : Hist) (vt : String) (r : VitalReading) :
    List.lookup vt (h.map fun p => if p.1 = vt then (p.1, p.2 ++ [r]) else p)
      = (List.lookup vt h).map (· ++ [r]) := by
  induction h with
  | nil => simp
  | cons q t ih =>
    simp only [List.map_cons]
    by_cases hq : q.1 = vt
    · rw [if_pos hq]
      have hb : (vt == q.1) = true := by simp [hq]
      simp [List.lookup, hb]
    · rw [if_neg hq]
      have hb : (vt == q.1) = false := by
        simp only [beq_eq_false_iff_ne, ne_eq]
        exact fun hx => hq hx.symm
      simp [List.lookup, hb, ih]

/-- Looking up a key absent from `h` finds the freshly appended
entry. -/
lemma lookup_append_of_none (h : Hist) (vt : String) (x : List VitalReading)
    (hn : List.lookup vt h = none) :
    List.lookup vt (h ++ [(vt, x)]) = some x := by
  induction h with
  | nil => simp [List.lookup]
  | cons q t ih =>
    cases hbeq : (vt == q.1) with
    | true => simp [List.lookup, hbeq] at hn
    | false =>
      simp only [List.lookup, hbeq] at hn
      simpa [List.cons_append, List.lookup, hbeq] using ih hn

/-- `histAppend` leaves the lookup of `vt` holding the old list with
the reading appended. -/
lemma lookup_histAppend (h : Hist) (vt : String) (r : VitalReading) :
    List.lookup vt (histAppend h vt r) = some (histGet h vt ++ [r]) := by
  unfold histAppend histGet
  by_cases hs : (List.lookup vt h).isSome
  · rw [if_pos hs, lookup_map_update]
    obtain ⟨l, hl⟩ := Option.isSome_iff_exists.mp hs
    rw [hl]; simp
  · rw [if_neg hs]
    have hn : List.lookup vt h = none := Option.not_isSome_iff_eq_none.mp hs
    rw [lookup_append_of_none h vt [r] hn, hn]; simp

/-- `histAppend` appends the reading to the history slice of `vt`. -/
lemma histGet_histAppend (h : Hist) (vt : String) (r : VitalReading) :
    histGet (histAppend h vt r) vt = histGet h vt ++ [r] := by
  unfold histGet
  rw [lookup_histAppend h vt r]
  rfl

/-- A reading just appended to `vt`'s history shows up in the default
ten-entry trend window. -/
lemma mem_trends_histAppend (h : Hist) (vt : String) (r : VitalReading) :
    r ∈ get_vital_trends (histAppend h vt r) vt 10 := by
  unfold get_vital_trends
  rw [lookup_histAppend h vt r]
  dsimp only
  rw [if_neg (by norm_num)]
  rw [List.length_append, List.drop_append_eq_append_drop]
  refine List.mem_append.mpr (Or.inr ?_)
  have hz : (histGet h vt).length + [r].length - 10 - (histGet h vt).length = 0 := by
    simp only [List.length_singleton]
    omega
  rw [hz]
  simp

/-- C8: the report's `overall_status` is `CRITICAL` exactly when some
per-vital entry's message carries the critical tag, else `WARNING`
exactly when some entry's message carries the warning tag, else
`NORMAL`; error entries (`condition = ERROR`) carry neither tag, so
they never force `CRITICAL` or `WARNING` on their own. -/
theorem C8_overall_status (p : PatientProfile) (lang : String) (h0 : Hist)
    (vitals : List (String × VitalInput)) :
    ((monitor_vitals p lang h0 vitals).overall_status = "CRITICAL" ↔
      ∃ e ∈ (monitor_vitals p lang h0 vitals).assessments, isCriticalRec e.2) ∧
    ((monitor_vitals p lang h0 vitals).overall_status = "WARNING" ↔
      (¬ ∃ e ∈ (monitor_vitals p lang h0 vitals).assessments, isCriticalRec e.2) ∧
      ∃ e ∈ (monitor_vitals p lang h0 vitals).assessments, isWarningRec e.2) ∧
    ((monitor_vitals p lang h0 vitals).overall_status = "NORMAL" ↔
      (¬ ∃ e ∈ (monitor_vitals p lang h0 vitals).assessments, isCriticalRec e.2) ∧
      ¬ ∃ e ∈ (monitor_vitals p lang h0 vitals).assessments, isWarningRec e.2) ∧
    (∀ d : String, isCriticalRec (.failure d) = false ∧ isWarningRec (.failure d) = false) := by
  obtain ⟨hc, hw⟩ := monitor_foldl_counts p lang vitals ⟨h0, [], [], [], 0, 0⟩
    (by simp) (by simp)
  have hov : (monitor_vitals p lang h0 vitals).overall_status =
      (if (vitals.foldl (monitor_step p lang) ⟨h0, [], [], [], 0, 0⟩).critical_count > 0
       then "CRITICAL"
       else if (vitals.foldl (monitor_step p lang) ⟨h0, [], [], [], 0, 0⟩).warning_count > 0
       then "WARNING" else "NORMAL") := rfl
  have has : (monitor_vitals p lang h0 vitals).assessments =
      (vitals.foldl (monitor_step p lang) ⟨h0, [], [], [], 0, 0⟩).assessments := rfl
  rw [hov, has]
  have hcpos : (0 < (vitals.foldl (monitor_step p lang) ⟨h0, [], [], [], 0, 0⟩).critical_count)
      ↔ ∃ e ∈ (vitals.foldl (monitor_step p lang) ⟨h0, [], [], [], 0, 0⟩).assessments,
          isCriticalRec e.2 := by
    rw [hc]; exact List.countP_pos_iff
  have hwpos : (0 < (vitals.foldl (monitor_step p lang) ⟨h0, [], [], [], 0, 0⟩).warning_count)
      ↔ ∃ e ∈ (vitals.foldl (monitor_step p lang) ⟨h0, [], [], [], 0, 0⟩).assessments,
          isWarningRec e.2 := by
    rw [hw]; exact List.countP_pos_iff
  by_cases h1 : 0 < (vitals.foldl (monitor_step p lang) ⟨h0, [], [], [], 0, 0⟩).critical_count
  · rw [if_pos h1]
    refine ⟨?_, ?_, ?_, fun d => ⟨rfl, rfl⟩⟩ <;> simp [hcpos.mp h1]
  · rw [if_neg h1]
    have hnc : ¬ ∃ e ∈ (vitals.foldl (monitor_step p lang) ⟨h0, [], [], [], 0, 0⟩).assessments,
        isCriticalRec e.2 := fun he => h1 (hcpos.mpr he)
    by_cases h2 : 0 < (vitals.foldl (monitor_step p lang) ⟨h0, [], [], [], 0, 0⟩).warning_count
    · rw [if_pos h2]
      refine ⟨?_, ?_, ?_, fun d => ⟨rfl, rfl⟩⟩ <;> simp [hnc, hwpos.mp h2]
    · rw [if_neg h2]
      have hnw : ¬ ∃ e ∈ (vitals.foldl (monitor_step p lang) ⟨h0, [], [], [], 0, 0⟩).assessments,
          isWarningRec e.2 := fun he => h2 (hwpos.mpr he)
      refine ⟨?_, ?_, ?_, fun d => ⟨rfl, rfl⟩⟩ <;> simp [hnc, hnw]

/-- C9: pulse rate `55` with the default adult profile classifies
`BRADY_CARDIA` as claimed, but with the age-70 profile — whose limits
are `[50, 90]`, so the low warning band is `[50, 50.6]` — the code
classifies `55` as `NORMAL`, not `NEAR_BRADY` as the claim (and the
repository's own test `test_vital_assessment_with_age_factors`)
states. -/
theorem C9_age_adjustment_divergence :
    assess_vital ⟨none, "adult"⟩ "en" "pulseRate" ⟨55, "bpm", "manual"⟩
      = .ok (.BRADY_CARDIA, adv_messages_en .BRADY_CARDIA) ∧
    PatientProfile.get_vital_limits ⟨some 70, "elderly"⟩ "pulseRate" = ⟨50, 90, 1.5⟩ ∧
    (⟨50, 90, 1.5⟩ : VitalLimits).calculate_warning_ranges = (50, 50.6, 89.4, 90) ∧
    assess_vital ⟨some 70, "elderly"⟩ "en" "pulseRate" ⟨55, "bpm", "manual"⟩
      = .ok (.NORMAL, "") ∧
    VitalCondition.NORMAL ≠ .NEAR_BRADY := by
  refine ⟨?_, ?_, ?_, ?_, by decide⟩
  · simp [assess_vital, convert_units, py_upper, assess_condition_for,
      classify_with_limits, PatientProfile.get_vital_limits,
      VitalLimits.calculate_warning_ranges, assess_condition, conditions_map_below,
      adv_message, adv_messages_table]
    norm_num
  · simp [PatientProfile.get_vital_limits]
  · norm_num [VitalLimits.calculate_warning_ranges, Prod.ext_iff]
  · simp [assess_vital, convert_units, py_upper, assess_condition_for,
      classify_with_limits, PatientProfile.get_vital_limits,
      VitalLimits.calculate_warning_ranges, assess_condition, conditions_map_below,
      conditions_map_near_low, conditions_map_near_high, conditions_map_above,
      adv_message, adv_messages_table, adv_messages_en]
    norm_num

/-- C10: inside `monitor_vitals`, once a reading is constructed it is
appended to its vital type's history before assessment; if assessment
then fails, the report gets an error entry but the history keeps the
appended reading, and the reading is visible through
`get_vital_trends`. -/
theorem C10_history_kept_on_error (p : PatientProfile) (lang : String) (h : Hist)
    (vt : String) (vi : VitalInput) (r : VitalReading) (e : String)
    (hmk : mkReading vi = .ok r)
    (hfail : assess_vital p lang vt r = .error e) :
    process_vital p lang h vt vi = (histAppend h vt r, .failure e) ∧
    histGet (process_vital p lang h vt vi).1 vt = histGet h vt ++ [r] ∧
    r ∈ get_vital_trends (process_vital p lang h vt vi).1 vt 10 ∧
    (monitor_vitals p lang h [(vt, vi)]).assessments = [(vt, .failure e)] ∧
    histGet (monitor_vitals p lang h [(vt, vi)]).history vt = histGet h vt ++ [r] := by
  have hpv : process_vital p lang h vt vi = (histAppend h vt r, .failure e) := by
    unfold process_vital
    rw [hmk]
    dsimp only
    rw [hfail]
  refine ⟨hpv, ?_, ?_, ?_, ?_⟩
  · rw [hpv]; exact histGet_histAppend h vt r
  · rw [hpv]; exact mem_trends_histAppend h vt r
  · simp [monitor_vitals, monitor_step, hpv]
  · simp [monitor_vitals, monitor_step, hpv, histGet_histAppend]

/-- Witness for C10: a temperature reading in the invalid unit `K`
fails assessment with `Invalid temperature unit: K`, yet is appended to
the history and appears in the trend window. -/
theorem C10_history_kept_on_error_witness :
    process_vital ⟨none, "adult"⟩ "en" [] "temperature" (.reading ⟨98.6, "K", "manual"⟩)
      = (histAppend [] "temperature" ⟨98.6, "K", "manual"⟩,
         .failure ("Invalid temperature unit: " ++ "K")) ∧
    (⟨98.6, "K", "manual"⟩ : VitalReading) ∈
      get_vital_trends
        (process_vital ⟨none, "adult"⟩ "en" [] "temperature"
          (.reading ⟨98.6, "K", "manual"⟩)).1 "temperature" 10 := by
  have h := C10_history_kept_on_error ⟨none, "adult"⟩ "en" [] "temperature"
    (.reading ⟨98.6, "K", "manual"⟩) ⟨98.6, "K", "manual"⟩
    ("Invalid temperature unit: " ++ "K") rfl
    (by simp [assess_vital, convert_units, py_upper])
  exact ⟨h.1, h.2.2.1⟩

end BMS
